import Mathlib

/-!
Verification of the virthelper VM-provisioning tool against its
natural-language specification.

This file shallowly embeds the parts of the source that the claims are
about:

* `getIPAddress` (src/vmtypes.py, lines 205-234): cluster IP planning over
  the ascending enumeration of usable host addresses of a subnet.
  IPv4 addresses are modelled as natural numbers (their 32-bit numeric
  value); a valid dotted-quad netmask is modelled by its prefix length,
  and the network address is the base address with the host bits cleared,
  exactly what `ipaddress.ip_network(.., strict=False)` computes.
* `deleteVM`, `deleteVMImage`, `deleteVMDirectory`, `normalizeVMState`
  (src/vmtypes.py, lines 312-381): state normalization against a backend
  modelled as lists of defined VM names, active VM names, disk-pool
  volume names and data-directory paths.  Each operation returns the new
  backend, the list of mutating backend calls it issued, the log lines it
  emitted, and whether it returned normally or called `sys.exit`.
  Python's `logging.fatal`/`logging.critical` only log - they do not
  raise - and the embedding reflects that.
* the startup static-network argument check (src/vmbuilder.py, lines
  399-406) and the `__main__` handler (lines 621-628).
* `getTemplateVMId` and the Proxmox `executeVirtInstall` ordering
  (src/proxmox_ubuntu_cloud.py, lines 213-227 and 239-307).
* Python attribute resolution for `createDiskImage` (src/vmtypes.py,
  lines 282-310), which references `self.GetDiskSize()`, and the arity of
  the inherited `getPrefixLength` at the call site in
  `ProxmoxUbuntuCloud.getNetworkConfig` (src/proxmox_ubuntu_cloud.py,
  lines 182-211).
-/

namespace Virthelper

/-! ## Address planning (src/vmtypes.py `getIPAddress`) -/

/-- Network address of `ip` under a prefix of length `plen`: the base
address with the `32 - plen` host bits cleared, as computed by
`ipaddress.ip_network(f"{ip}/{netmask}", strict=False)`. -/
def netAddr (ip plen : Nat) : Nat :=
  ip / 2 ^ (32 - plen) * 2 ^ (32 - plen)

/-- The ascending list of usable host addresses of the network containing
`ip`, as produced by Python's `network.hosts()`: for prefixes up to 30 all
addresses strictly between the network and broadcast addresses; a /31 has
both addresses usable and a /32 exactly its single address. -/
def hostsList (ip plen : Nat) : List Nat :=
  let net := netAddr ip plen
  if 31 ≤ plen then
    if plen = 32 then [net] else [net, net + 1]
  else
    (List.range (2 ^ (32 - plen) - 2)).map (fun i => net + 1 + i)

/-- Embedding of `VMBuilder.getIPAddress` (src/vmtypes.py lines 205-234).
`none` for the address input models an unset `--ip_address` (DHCP); the
`none` result also models the `ValueError`/`IndexError` paths (base
address not among the usable hosts, or slice index out of range). -/
def getIPAddress (ip_address : Option Nat) (plen cluster_size cluster_index : Nat) :
    Option Nat :=
  match ip_address with
  | none => none
  | some ip =>
    if cluster_size = 1 then some ip
    else
      let hosts := hostsList ip plen
      let host_start_index := hosts.indexOf ip
      ((hosts.drop host_start_index).take cluster_size)[cluster_index]?

/-! ## State normalization (src/vmtypes.py lines 312-381) -/

/-- Command-line flags relevant to state normalization. -/
structure Args where
  dry_run : Bool
  deleteifexists : Bool
deriving DecidableEq, Repr

/-- Backend state visible to state normalization: libvirt defined-domain
names, active-domain names, disk-pool volume names, and on-disk VM data
directories. -/
structure Backend where
  definedVMs : List String
  activeVMs : List String
  volumes : List String
  directories : List String
deriving DecidableEq, Repr

/-- Mutating backend calls that state normalization can issue. -/
inductive Call where
  | destroy (name : String)
  | undefine (name : String)
  | volumeDelete (name : String)
  | rmtree (path : String)
deriving DecidableEq, Repr

/-- Whether a step returned normally or called `sys.exit`. -/
inductive Outcome where
  | ok
  | exited (code : Nat)
deriving DecidableEq, Repr

/-- Result of one normalization step: the backend afterwards, the mutating
calls issued, the log lines emitted, and the outcome. -/
structure NormResult where
  backend : Backend
  calls : List Call
  logs : List String
  outcome : Outcome
deriving DecidableEq, Repr

/-- Embedding of `VMBuilder.deleteVM` (src/vmtypes.py lines 334-351).
The dry-run check comes first; then the existence check; when the VM
exists and `--deleteifexists` was not passed, `logging.fatal` only logs,
and the code falls through to `destroy` (if active) and `undefine`. -/
def deleteVM (args : Args) (vmName : String) (b : Backend) : NormResult :=
  if args.dry_run then
    ⟨b, [], ["DRY RUN: VM would have been deleted here."], .ok⟩
  else if vmName ∈ b.definedVMs then
    let logs :=
      if args.deleteifexists then
        ["Found existing VM with same name."]
      else
        ["Found existing VM with same name.",
         "VM image found, but --deleteifexists flag not passed."]
    if vmName ∈ b.activeVMs then
      ⟨{ b with activeVMs := b.activeVMs.erase vmName,
                definedVMs := b.definedVMs.erase vmName },
       [Call.destroy vmName, Call.undefine vmName], logs, .ok⟩
    else
      ⟨{ b with definedVMs := b.definedVMs.erase vmName },
       [Call.undefine vmName], logs, .ok⟩
  else
    ⟨b, [], ["VM does not already exist. No VM to delete."], .ok⟩

/-- Embedding of `VMBuilder.deleteVMImage` (src/vmtypes.py lines 312-332).
The existence check comes first, then the dry-run check, then the
delete-flag check, which here really does `sys.exit(1)`. -/
def deleteVMImage (args : Args) (imageName poolName vmName : String) (b : Backend) :
    NormResult :=
  let log0 := "Checking for pre-existing disk image for this VM."
  if imageName ∈ b.volumes then
    let log1 := "Attempting to delete image in pool " ++ poolName ++ " for vm " ++ vmName
    if args.dry_run then
      ⟨b, [], [log0, log1, "DRY RUN: Disk image not actually deleted."], .ok⟩
    else if args.deleteifexists then
      ⟨{ b with volumes := b.volumes.erase imageName },
       [Call.volumeDelete imageName],
       [log0, log1, "Finished deleting VM image for VM."], .ok⟩
    else
      ⟨b, [],
       [log0, log1,
        "VM image found for host, but --deleteifexists flag not passed."],
       .exited 1⟩
  else
    ⟨b, [], [log0, "VM image does not exist for VM. Nothing to delete."], .ok⟩

/-- Embedding of `VMBuilder.deleteVMDirectory` (src/vmtypes.py lines
353-371).  Dry-run check first, then existence; when the directory exists
and `--deleteifexists` was not passed, `logging.fatal` only logs and the
code falls through to `shutil.rmtree`. -/
def deleteVMDirectory (args : Args) (vmDir : String) (b : Backend) : NormResult :=
  if args.dry_run then
    ⟨b, [],
     ["DRY RUN: Would have tried to delete VM data directory: " ++ vmDir ++ "."],
     .ok⟩
  else if vmDir ∈ b.directories then
    let logs :=
      if args.deleteifexists then
        ["Attempting to delete VM directory: " ++ vmDir ++ "."]
      else
        ["VM directory found, but --deleteifexists flag not passed.",
         "Attempting to delete VM directory: " ++ vmDir ++ "."]
    ⟨{ b with directories := b.directories.erase vmDir },
     [Call.rmtree vmDir], logs, .ok⟩
  else
    ⟨b, [], ["VM data directory " ++ vmDir ++ " not found. Nothing to delete."], .ok⟩

/-- Embedding of `VMBuilder.normalizeVMState` (src/vmtypes.py lines
373-381): run `deleteVM`, then `deleteVMImage`; a `sys.exit` in the first
step would stop the run. -/
def normalizeVMState (args : Args) (vmName imageName poolName : String) (b : Backend) :
    NormResult :=
  let r1 := deleteVM args vmName b
  match r1.outcome with
  | .exited n => ⟨r1.backend, r1.calls, r1.logs, .exited n⟩
  | .ok =>
    let r2 := deleteVMImage args imageName poolName vmName r1.backend
    ⟨r2.backend, r1.calls ++ r2.calls, r1.logs ++ r2.logs, r2.outcome⟩

/-! ## Startup argument validation (src/vmbuilder.py lines 399-406, 621-628) -/

/-- Embedding of the static-network all-or-nothing check at the end of
`VMBuilder.parseArgs` (src/vmbuilder.py lines 399-406).  Each Bool is the
Python truthiness of the corresponding flag value in
`network_args = [args.ip_address, args.nameserver, args.gateway,
args.netmask]`; when some but not all are truthy a `HandledException` is
raised.  The error value is the exception. -/
def parseArgsNetworkCheck (ip_address nameserver gateway netmask : Bool) :
    Except Unit Unit :=
  if (ip_address || nameserver || gateway || netmask)
      && !(ip_address && nameserver && gateway && netmask) then
    .error ()
  else
    .ok ()

/-- Observable result of a whole process run: the exit code and how many
backend (libvirt) connections were opened. -/
structure RunResult where
  exitCode : Nat
  connectionsOpened : Nat
deriving DecidableEq, Repr

/-- Embedding of the `__main__` control flow (src/vmbuilder.py lines
621-628): `VMBuilder()` runs `parseArgs` before anything else, no
connection exists yet, and a `HandledException` is caught by the
top-level handler which calls `sys.exit(1)`.  `rest` stands for whatever
the rest of `main` would do when parsing succeeds. -/
def mainEntry (ip_address nameserver gateway netmask : Bool) (rest : RunResult) :
    RunResult :=
  match parseArgsNetworkCheck ip_address nameserver gateway netmask with
  | .error _ => ⟨1, 0⟩
  | .ok _ => rest

/-! ## Proxmox clone variant (src/proxmox_ubuntu_cloud.py) -/

/-- One entry of the Proxmox all-VM index built by `getAllVMInfo`:
guest id, name, the node it lives on, and whether the guest record has
the `template` key (the flag `getTemplateVMId` tests with
`'template' in vm`). -/
structure PVM where
  vmid : Nat
  name : String
  node : String
  hasTemplateKey : Bool
deriving DecidableEq, Repr

/-- Embedding of `ProxmoxUbuntuCloud.getTemplateVMId`
(src/proxmox_ubuntu_cloud.py lines 213-227): collect the guests carrying
the `template` key on the requested node into a dict keyed by name (a
later duplicate name overwrites an earlier one, hence the `reverse`),
then look the requested template name up; a `KeyError` becomes
`sys.exit(1)`, modelled as `.error 1`. -/
def getTemplateVMId (allvminfo : List PVM) (nodeName templateName : String) :
    Except Nat Nat :=
  let template_vms := allvminfo.filter (fun vm => vm.hasTemplateKey && vm.node == nodeName)
  match template_vms.reverse.find? (fun vm => vm.name == templateName) with
  | some vm => .ok vm.vmid
  | none => .error 1

/-- Mutating Proxmox API calls issued by the clone variant's
`executeVirtInstall`. -/
inductive PCall where
  | clonePost (node : String) (templateId newId : Nat)
  | resizePut (node : String) (vmid : Nat)
  | configPost (node : String) (vmid : Nat)
  | startPost (node : String) (vmid : Nat)
deriving DecidableEq, Repr

/-- Embedding of `ProxmoxUbuntuCloud.executeVirtInstall`
(src/proxmox_ubuntu_cloud.py lines 239-307), restricted to its ordering
of backend effects: `getNextVMId` and `getViableNode` are read-only, then
`getTemplateVMId` runs and may `sys.exit(1)`, and only after that are the
clone, resize, config and start calls posted (all skipped under
dry-run).  Returns the mutating calls issued and `some code` when the
process exited. -/
def pExecuteVirtInstall (dry_run : Bool) (allvminfo : List PVM)
    (nodeName templateName : String) (newVMId : Nat) : List PCall × Option Nat :=
  match getTemplateVMId allvminfo nodeName templateName with
  | .error c => ([], some c)
  | .ok tid =>
    if dry_run then ([], none)
    else ([PCall.clonePost nodeName tid newVMId, PCall.resizePut nodeName newVMId,
           PCall.configPost nodeName newVMId, PCall.startPost nodeName newVMId],
          none)

/-! ## Attribute resolution for `createDiskImage` (src/vmtypes.py lines 282-310) -/

/-- Attribute names defined on class `VMBuilder` in src/vmtypes.py:
class variables and methods, as they appear in the source.  Note the
accessor is `getDiskSize`; no `GetDiskSize` exists. -/
def vmtypesVMBuilderAttrs : List String :=
  ["build", "conn", "pool_path", "vm_hostname", "cluster_index", "args",
   "virt_install_flag_updates",
   "setArgs", "getConfigsDir", "getClusterSize", "setClusterIndex",
   "getClusterIndex", "getVmHost", "getVmHostNameArg", "setVmHostName",
   "getVmHostName", "getVmName", "getVmDiskImageName", "getVmDomainName",
   "getVmDiskImagePath", "getVmDirectory", "getDiskPoolName",
   "getNetworkBridgeInterface", "getRam", "getDistMirror", "getCpus",
   "getDiskSize", "getPreseedUrl", "configureLogging", "getVmType",
   "getBuild", "getConn", "getDiskPools", "getDiskPoolPath",
   "getDiskPoolVolumes", "getIPAddress", "getPrefixLength", "getNameserver",
   "getNetmask", "getGateway", "getDefinedVMs", "getSshKey",
   "getUbuntuRelease", "getDebianRelease", "createDiskImage",
   "deleteVMImage", "deleteVM", "deleteVMDirectory", "normalizeVMState",
   "checkValidMacAddress", "executeVirtInstall", "createVM",
   "verifyMinimumCreateVMArgs"]

/-- Attribute names defined on class `BaseVM` in src/vmtypes.py. -/
def vmtypesBaseVMAttrs : List String :=
  ["executePreVirtInstall", "executePostVirtInstall",
   "getVirtInstallExtraArgs", "getNetworkExtraArgs",
   "getVirtInstallCustomFlags", "getVirtInstallFinalArgs",
   "getDistroSpecificExtraArgs"]

/-- Attribute names defined on class `Debian` in src/vmtypes.py. -/
def vmtypesDebianAttrs : List String :=
  ["getDistLocation", "getVirtInstallCustomFlags", "getNetworkExtraArgs",
   "getVirtInstallExtraArgs"]

/-- Attribute names defined on class `Ubuntu` in src/vmtypes.py. -/
def vmtypesUbuntuAttrs : List String :=
  ["getDistroSpecificExtraArgs"]

/-- Attribute lookup order for a `Debian` instance: Debian, then BaseVM,
then VMBuilder. -/
def debianAttrs : List String :=
  vmtypesDebianAttrs ++ vmtypesBaseVMAttrs ++ vmtypesVMBuilderAttrs

/-- Attribute lookup order for an `Ubuntu` instance. -/
def ubuntuAttrs : List String :=
  vmtypesUbuntuAttrs ++ vmtypesDebianAttrs ++ vmtypesBaseVMAttrs ++ vmtypesVMBuilderAttrs

/-- Result of a Python call that may raise `AttributeError`. -/
inductive PyOutcome (α : Type) where
  | ok (a : α)
  | attributeError (attrName : String)
deriving DecidableEq, Repr

/-- Embedding of `VMBuilder.createDiskImage` (src/vmtypes.py lines
282-310) for an instance whose attribute names are `attrs`.  The
f-string for the `virsh vol-create-as` command line resolves
`self.getDiskPoolName`, `self.getVmDiskImageName` and `self.GetDiskSize`
in order; an unresolved name raises `AttributeError` there, before the
dry-run check and before any external command.  The `ok` payload is the
list of external commands actually issued. -/
def createDiskImage (dry_run : Bool) (attrs : List String) : PyOutcome (List String) :=
  if "getDiskPoolName" ∈ attrs then
    if "getVmDiskImageName" ∈ attrs then
      if "GetDiskSize" ∈ attrs then
        if dry_run then .ok []
        else .ok ["/usr/bin/virsh vol-create-as"]
      else .attributeError "GetDiskSize"
    else .attributeError "getVmDiskImageName"
  else .attributeError "getDiskPoolName"

/-! ## Arity of `getPrefixLength` at the Proxmox call site -/

/-- Number of parameters (after `self`) of the inherited
`VMBuilder.getPrefixLength(self, ip_address, netmask)`
(src/vmtypes.py lines 236-240). -/
def getPrefixLengthParamCount : Nat := 2

/-- A parsed static IP address, as classified by
`ipaddress.ip_address`. -/
inductive IPA where
  | v4 (value : Nat)
  | v6 (value : Nat)
deriving DecidableEq, Repr

/-- Result of `getNetworkConfig`: a cloud-init `ipconfig0` string, or a
`TypeError` from calling a method with the wrong number of positional
arguments. -/
inductive NetCfgResult where
  | ok (s : String)
  | typeErrorArity (expected got : Nat)
deriving DecidableEq, Repr

/-- Embedding of `ProxmoxUbuntuCloud.getNetworkConfig`
(src/proxmox_ubuntu_cloud.py lines 182-211).  With no static IP it
returns the DHCP string.  With a static IP it classifies the address
family and then calls `self.getPrefixLength(ip, self.getNetmask(),
ip_family)` with 3 positional arguments; the inherited method accepts
only `getPrefixLengthParamCount` of them, so the call raises `TypeError`
and the branch that would build the static `ipconfig` string is
unreachable. -/
def getNetworkConfig (ip : Option IPA) (ipconfigOnMatch : String) : NetCfgResult :=
  match ip with
  | none => .ok "ip=dhcp,ip6=auto"
  | some addr =>
    let _ip_family : String := match addr with | .v4 _ => "ip" | .v6 _ => "ip6"
    if 3 = getPrefixLengthParamCount then
      .ok ipconfigOnMatch
    else
      .typeErrorArity getPrefixLengthParamCount 3

/-! ## Helper lemmas -/

/-- When neither the VM nor the disk image exists, state normalization
returns normally, leaves the backend unchanged and issues no mutating
call, whatever the flags are. -/
lemma norm_clean_aux (args : Args) (vm img pool : String) (b : Backend)
    (hvm : vm ∉ b.definedVMs) (himg : img ∉ b.volumes) :
    (normalizeVMState args vm img pool b).backend = b ∧
    (normalizeVMState args vm img pool b).calls = [] ∧
    (normalizeVMState args vm img pool b).outcome = .ok := by
  cases hd : args.dry_run <;>
    simp [normalizeVMState, deleteVM, deleteVMImage, hd, hvm, himg]

/-- A live run with the delete flag set returns normally, and afterwards
(on a backend whose name lists are duplicate-free, as libvirt guarantees)
neither the VM name nor the image name is present any more. -/
lemma norm_live_del_aux (vm img pool : String) (b : Backend)
    (hnd : b.definedVMs.Nodup) (hnv : b.volumes.Nodup) :
    (normalizeVMState ⟨false, true⟩ vm img pool b).outcome = .ok ∧
    vm ∉ (normalizeVMState ⟨false, true⟩ vm img pool b).backend.definedVMs ∧
    img ∉ (normalizeVMState ⟨false, true⟩ vm img pool b).backend.volumes := by
  by_cases hm : vm ∈ b.definedVMs <;> by_cases ha : vm ∈ b.activeVMs <;>
    by_cases hi : img ∈ b.volumes <;>
      simp [normalizeVMState, deleteVM, deleteVMImage, hm, ha, hi,
        hnd.not_mem_erase, hnv.not_mem_erase]

/-- The usable-host enumeration of a subnet is strictly increasing. -/
lemma hostsList_get_mono (ip plen i j : Nat) (hij : i < j)
    (hj : j < (hostsList ip plen).length) :
    (hostsList ip plen).get ⟨i, Nat.lt_trans hij hj⟩ < (hostsList ip plen).get ⟨j, hj⟩ := by
  simp only [List.get_eq_getElem]
  unfold hostsList at hj ⊢
  by_cases h31 : 31 ≤ plen
  · by_cases h32 : plen = 32
    · simp [h31, h32] at hj
      omega
    · simp only [h31, h32, if_true, if_false] at hj ⊢
      simp [h32] at hj ⊢
      have : i = 0 ∧ j = 1 := by omega
      obtain ⟨hi0, hj1⟩ := this
      subst hi0; subst hj1
      simp
  · simp only [h31, if_false] at hj ⊢
    simp at hj
    simp [List.getElem_map, List.getElem_range]
    omega

/-! ## Claim theorems -/

/-- C3: for cluster_size > 1, index < cluster_size and the resulting
position inside the subnet's usable host range, `getIPAddress` returns
the address at position offset + index of the ascending usable-host
enumeration, where offset is the position of the base address; addresses
for distinct indices are distinct and numerically increasing in the
index; and concretely base 10.0.0.10/24 (numerically 167772170) with
indices 0, 1, 2 yields 10.0.0.10, 10.0.0.11, 10.0.0.12. -/
theorem getIPAddress_cluster_plan (ip plen cs idx : Nat) (hcs : 1 < cs) (hidx : idx < cs)
    (hlt : (hostsList ip plen).indexOf ip + idx < (hostsList ip plen).length) :
    getIPAddress (some ip) plen cs idx
        = (hostsList ip plen)[(hostsList ip plen).indexOf ip + idx]? ∧
    (∀ i, i < idx → ∀ a c, getIPAddress (some ip) plen cs i = some a →
        getIPAddress (some ip) plen cs idx = some c → a < c) ∧
    (getIPAddress (some 167772170) 24 3 0 = some 167772170 ∧
     getIPAddress (some 167772170) 24 3 1 = some 167772171 ∧
     getIPAddress (some 167772170) 24 3 2 = some 167772172) := by
  have hne : ¬(cs = 1) := by omega
  have key : ∀ k, k < cs →
      getIPAddress (some ip) plen cs k
        = (hostsList ip plen)[(hostsList ip plen).indexOf ip + k]? := by
    intro k hk
    simp only [getIPAddress, if_neg hne]
    rw [List.getElem?_take_of_lt hk, List.getElem?_drop]
  refine ⟨key idx hidx, ?_, by decide, by decide, by decide⟩
  intro i hi a c ha hc
  have hki : i < cs := by omega
  have hlti : (hostsList ip plen).indexOf ip + i < (hostsList ip plen).length := by omega
  rw [key i hki, List.getElem?_eq_getElem hlti] at ha
  rw [key idx hidx, List.getElem?_eq_getElem hlt] at hc
  injection ha with ha'
  injection hc with hc'
  subst ha'
  subst hc'
  have h := hostsList_get_mono ip plen ((hostsList ip plen).indexOf ip + i)
      ((hostsList ip plen).indexOf ip + idx) (by omega) hlt
  simpa [List.get_eq_getElem] using h

set_option maxRecDepth 4000 in
/-- Witness for C3: the theorem applied to base 10.0.0.10/24,
cluster_size 3, index 2, with every hypothesis discharged by
computation. -/
theorem getIPAddress_cluster_plan_witness :
    getIPAddress (some 167772170) 24 3 2
      = (hostsList 167772170 24)[(hostsList 167772170 24).indexOf 167772170 + 2]? :=
  (getIPAddress_cluster_plan 167772170 24 3 2 (by decide) (by decide) (by decide)).1

/-- C4: with cluster_size 1, `getIPAddress` returns the base address
unchanged for any prefix and any cluster index; with no base address set,
it returns the DHCP sentinel `none`. -/
theorem getIPAddress_single_and_dhcp :
    (∀ ip plen idx, getIPAddress (some ip) plen 1 idx = some ip) ∧
    (∀ plen cs idx, getIPAddress none plen cs idx = none) :=
  ⟨fun _ _ _ => rfl, fun _ _ _ => rfl⟩

/-- C5: when no VM, disk volume or data directory matches the instance
name, state normalization is a no-op (Clean) for every combination of
flags: backend unchanged, no mutating call, normal return; likewise for
the data-directory step. -/
theorem normalize_no_match_is_clean (args : Args) (vm img pool dir : String)
    (b : Backend) (hvm : vm ∉ b.definedVMs) (himg : img ∉ b.volumes)
    (hdir : dir ∉ b.directories) :
    (normalizeVMState args vm img pool b).backend = b ∧
    (normalizeVMState args vm img pool b).calls = [] ∧
    (normalizeVMState args vm img pool b).outcome = .ok ∧
    (deleteVMDirectory args dir b).backend = b ∧
    (deleteVMDirectory args dir b).calls = [] ∧
    (deleteVMDirectory args dir b).outcome = .ok := by
  obtain ⟨h1, h2, h3⟩ := norm_clean_aux args vm img pool b hvm himg
  refine ⟨h1, h2, h3, ?_, ?_, ?_⟩ <;>
    cases hd : args.dry_run <;> simp [deleteVMDirectory, hd, hdir]

/-- Witness for C5 at a concrete backend holding unrelated resources. -/
theorem normalize_no_match_is_clean_witness :
    (normalizeVMState ⟨false, false⟩ "web1.example.com" "web1.example.com.qcow2"
        "vms" ⟨["db0.example.com"], [], ["db0.example.com.qcow2"], []⟩).calls = [] ∧
    (normalizeVMState ⟨false, false⟩ "web1.example.com" "web1.example.com.qcow2"
        "vms" ⟨["db0.example.com"], [], ["db0.example.com.qcow2"], []⟩).outcome = .ok := by
  have h := normalize_no_match_is_clean ⟨false, false⟩ "web1.example.com"
    "web1.example.com.qcow2" "vms" "/vms/web1.example.com"
    ⟨["db0.example.com"], [], ["db0.example.com.qcow2"], []⟩
    (by decide) (by decide) (by decide)
  exact ⟨h.2.1, h.2.2.1⟩

/-- C6: state normalization is idempotent: after a successful live run
with the delete flag set against a backend where the resource existed,
a second run on the resulting backend is Clean: no mutating call, normal
return, backend unchanged. -/
theorem normalize_idempotent (vm img pool : String) (b : Backend)
    (hnd : b.definedVMs.Nodup) (hnv : b.volumes.Nodup)
    (_hex : vm ∈ b.definedVMs ∨ img ∈ b.volumes) :
    (normalizeVMState ⟨false, true⟩ vm img pool b).outcome = .ok ∧
    (normalizeVMState ⟨false, true⟩ vm img pool
        (normalizeVMState ⟨false, true⟩ vm img pool b).backend).backend
      = (normalizeVMState ⟨false, true⟩ vm img pool b).backend ∧
    (normalizeVMState ⟨false, true⟩ vm img pool
        (normalizeVMState ⟨false, true⟩ vm img pool b).backend).calls = [] ∧
    (normalizeVMState ⟨false, true⟩ vm img pool
        (normalizeVMState ⟨false, true⟩ vm img pool b).backend).outcome = .ok := by
  obtain ⟨h1, h2, h3⟩ := norm_live_del_aux vm img pool b hnd hnv
  obtain ⟨g1, g2, g3⟩ := norm_clean_aux ⟨false, true⟩ vm img pool
    (normalizeVMState ⟨false, true⟩ vm img pool b).backend h2 h3
  exact ⟨h1, g1, g2, g3⟩

/-- Witness for C6: the second run against the backend left by a first
successful delete records no mutating call. -/
theorem normalize_idempotent_witness :
    (normalizeVMState ⟨false, true⟩ "web1.example.com" "web1.example.com.qcow2" "vms"
        (normalizeVMState ⟨false, true⟩ "web1.example.com" "web1.example.com.qcow2"
          "vms" ⟨["web1.example.com"], ["web1.example.com"],
                 ["web1.example.com.qcow2"], []⟩).backend).calls = [] := by
  have h := normalize_idempotent "web1.example.com" "web1.example.com.qcow2" "vms"
    ⟨["web1.example.com"], ["web1.example.com"], ["web1.example.com.qcow2"], []⟩
    (by decide) (by decide) (by decide)
  exact h.2.2.1

/-- C1: evaluation at the failing input.  With an existing defined (and
active) VM of the same name and `deleteifexists` false in a live run,
`normalizeVMState` does NOT abort: it returns normally after issuing the
mutating `destroy` and `undefine` calls, and `deleteVMDirectory` likewise
removes the existing data directory.  `logging.fatal` only logs, so the
spec's Aborted outcome never happens on these paths. -/
theorem normalize_mutates_without_delete_flag :
    (normalizeVMState ⟨false, false⟩ "vm1.example.com" "vm1.example.com.qcow2" "vms"
        ⟨["vm1.example.com"], ["vm1.example.com"], [], ["/vms/vm1.example.com"]⟩).calls
      = [Call.destroy "vm1.example.com", Call.undefine "vm1.example.com"] ∧
    (normalizeVMState ⟨false, false⟩ "vm1.example.com" "vm1.example.com.qcow2" "vms"
        ⟨["vm1.example.com"], ["vm1.example.com"], [], ["/vms/vm1.example.com"]⟩).outcome
      = .ok ∧
    (deleteVMDirectory ⟨false, false⟩ "/vms/vm1.example.com"
        ⟨["vm1.example.com"], ["vm1.example.com"], [], ["/vms/vm1.example.com"]⟩).calls
      = [Call.rmtree "/vms/vm1.example.com"] := by
  refine ⟨?_, ?_, ?_⟩ <;> decide

/-- C2 counterexample: the Clean-vs-Aborted decision logic is NOT
identical between a live run and a dry run.  With an existing disk image
and `deleteifexists` false, the live run exits with code 1 while the dry
run returns normally, because the dry-run check short-circuits before the
delete-flag check. -/
theorem dry_run_skips_abort_decision :
    (normalizeVMState ⟨false, false⟩ "a.example.com" "a.example.com.qcow2" "vms"
        ⟨[], [], ["a.example.com.qcow2"], []⟩).outcome = .exited 1 ∧
    (normalizeVMState ⟨true, false⟩ "a.example.com" "a.example.com.qcow2" "vms"
        ⟨[], [], ["a.example.com.qcow2"], []⟩).outcome = .ok ∧
    (normalizeVMState ⟨true, false⟩ "a.example.com" "a.example.com.qcow2" "vms"
        ⟨[], [], ["a.example.com.qcow2"], []⟩).calls = [] := by
  refine ⟨?_, ?_, ?_⟩ <;> decide

/-- C2 (amended): in dry-run mode state normalization records zero
mutating calls, leaves the backend unchanged, returns normally, and
reports its intent with distinct DRY RUN log lines (the disk-image line
whenever the image exists) - but the live run's Clean-vs-Aborted
decision is not re-evaluated. -/
theorem normalize_dry_run_reports_without_mutation (args : Args)
    (vm img pool : String) (b : Backend) (hd : args.dry_run = true) :
    (normalizeVMState args vm img pool b).backend = b ∧
    (normalizeVMState args vm img pool b).calls = [] ∧
    (normalizeVMState args vm img pool b).outcome = .ok ∧
    "DRY RUN: VM would have been deleted here."
      ∈ (normalizeVMState args vm img pool b).logs ∧
    (img ∈ b.volumes →
      "DRY RUN: Disk image not actually deleted."
        ∈ (normalizeVMState args vm img pool b).logs) := by
  by_cases hi : img ∈ b.volumes <;>
    simp [normalizeVMState, deleteVM, deleteVMImage, hd, hi]

/-- Witness for the amended C2: existing resource, delete flag set, dry
run: zero mutating calls and a normal return. -/
theorem normalize_dry_run_reports_without_mutation_witness :
    (normalizeVMState ⟨true, true⟩ "a.example.com" "a.example.com.qcow2" "vms"
        ⟨["a.example.com"], [], ["a.example.com.qcow2"], []⟩).calls = [] ∧
    (normalizeVMState ⟨true, true⟩ "a.example.com" "a.example.com.qcow2" "vms"
        ⟨["a.example.com"], [], ["a.example.com.qcow2"], []⟩).outcome = .ok := by
  have h := normalize_dry_run_reports_without_mutation ⟨true, true⟩ "a.example.com"
    "a.example.com.qcow2" "vms"
    ⟨["a.example.com"], [], ["a.example.com.qcow2"], []⟩ rfl
  exact ⟨h.2.1, h.2.2.1⟩

/-- C7: when some but not all of the static-network flags ip_address,
nameserver, gateway, netmask are set, the startup check raises
`HandledException`, the process exits with code 1, and no backend
connection is ever opened. -/
theorem incomplete_network_args_exit_before_backend (ip ns gw nm : Bool)
    (rest : RunResult)
    (hsome : ip = true ∨ ns = true ∨ gw = true ∨ nm = true)
    (hnotall : ¬(ip = true ∧ ns = true ∧ gw = true ∧ nm = true)) :
    (mainEntry ip ns gw nm rest).exitCode = 1 ∧
    (mainEntry ip ns gw nm rest).connectionsOpened = 0 := by
  cases ip <;> cases ns <;> cases gw <;> cases nm <;>
    simp_all [mainEntry, parseArgsNetworkCheck]

/-- Witness for C7: ip_address set, gateway (and the rest) omitted. -/
theorem incomplete_network_args_exit_before_backend_witness :
    (mainEntry true false false false ⟨0, 5⟩).exitCode = 1 ∧
    (mainEntry true false false false ⟨0, 5⟩).connectionsOpened = 0 :=
  incomplete_network_args_exit_before_backend true false false false ⟨0, 5⟩
    (Or.inl rfl) (by simp)

/-- C8: when no guest carrying the template key on the target node bears
the requested template name, the Proxmox clone variant exits with code 1
and issues no clone, resize, config or start call. -/
theorem missing_template_aborts_before_clone (dry : Bool) (info : List PVM)
    (node tmpl : String) (newId : Nat)
    (habs : ∀ vm ∈ info,
      ¬(vm.hasTemplateKey = true ∧ vm.node = node ∧ vm.name = tmpl)) :
    pExecuteVirtInstall dry info node tmpl newId = ([], some 1) := by
  have hnone : (info.filter
      (fun vm => vm.hasTemplateKey && vm.node == node)).reverse.find?
        (fun vm => vm.name == tmpl) = none := by
    rw [List.find?_eq_none]
    intro x hx
    rw [List.mem_reverse, List.mem_filter] at hx
    obtain ⟨hmem, hcond⟩ := hx
    have hx' := habs x hmem
    simp only [Bool.and_eq_true, beq_iff_eq] at hcond
    simp only [beq_iff_eq]
    intro hname
    exact hx' ⟨hcond.1, hcond.2, hname⟩
  simp [pExecuteVirtInstall, getTemplateVMId, hnone]

/-- Witness for C8: a cluster holding a template of a different name and
a non-template guest, queried for a template name that is absent. -/
theorem missing_template_aborts_before_clone_witness :
    pExecuteVirtInstall false
      [⟨100, "other-template", "node1", true⟩, ⟨101, "web1", "node1", false⟩]
      "node1" "ubuntu-template" 102 = ([], some 1) := by
  apply missing_template_aborts_before_clone
  decide

/-- C9: for both Debian-family instance types in src/vmtypes.py, every
invocation of the base-class `createDiskImage` raises AttributeError for
`GetDiskSize` while building the command string, before the dry-run check
and before any external command, in live and dry-run mode alike. -/
theorem createDiskImage_always_attributeError :
    ∀ dry : Bool,
      createDiskImage dry debianAttrs = .attributeError "GetDiskSize" ∧
      createDiskImage dry ubuntuAttrs = .attributeError "GetDiskSize" := by
  intro dry
  cases dry <;> exact ⟨by decide, by decide⟩

/-- C10: the Proxmox `getNetworkConfig` returns normally only in the DHCP
case, producing ip=dhcp,ip6=auto; for every static IP address (IPv4 or
IPv6) it raises TypeError, because the call passes 3 positional arguments
to the inherited 2-parameter `getPrefixLength`. -/
theorem getNetworkConfig_static_typeError :
    (∀ s, getNetworkConfig none s = .ok "ip=dhcp,ip6=auto") ∧
    (∀ s (addr : IPA), getNetworkConfig (some addr) s = .typeErrorArity 2 3) := by
  refine ⟨fun _ => rfl, fun s addr => ?_⟩
  cases addr <;> rfl

end Virthelper
